import Mathlib

/-!
Verification of the kotal node-operator core: the defaulting stage, the
resource validation pipeline, the client adapters and the reconciliation
engine, embedded shallowly from the Go sources of the repository.
-/

namespace Kotal

/-- Shared resource block of a node spec. Quantities are strings in the
source (for example "2" or "1Gi"); the empty string means unset. -/
structure Resources where
  CPU : String
  CPULimit : String
  Memory : String
  MemoryLimit : String
  Storage : String
  StorageClass : Option String
  deriving DecidableEq, Repr

/-- Value of a digit run read in base ten. -/
def digitsVal (cs : List Char) : Nat :=
  cs.foldl (fun n c => n * 10 + (c.toNat - 48)) 0

/-- Multiplier denoted by a quantity suffix, following the platform
resource library conventions (decimal and binary suffixes). Values are
measured in thousandths of a unit so that the milli suffix stays
integral; the scaling preserves the ordering of quantities. -/
def suffixVal : List Char → Option Nat
  | [] => some 1000
  | ['m'] => some 1
  | ['k'] => some 1000000
  | ['M'] => some 1000000000
  | ['G'] => some 1000000000000
  | ['T'] => some 1000000000000000
  | ['K', 'i'] => some 1024000
  | ['M', 'i'] => some 1048576000
  | ['G', 'i'] => some 1073741824000
  | ['T', 'i'] => some 1099511627776000
  | _ => none

/-- Numeric value of a quantity character sequence: a digit run followed
by an optional suffix. Returns none on unparsable input (including the
empty sequence), modelling a parse failure of the platform resource
library. -/
def parseQuantityChars (cs : List Char) : Option Nat :=
  match cs.takeWhile Char.isDigit, suffixVal (cs.dropWhile Char.isDigit) with
  | [], _ => none
  | _, none => none
  | ds, some m => some (digitsVal ds * m)

/-- Numeric value of a quantity string, in thousandths of a unit. -/
def parseQuantity (s : String) : Option Nat := parseQuantityChars s.data

namespace Polkadot

/-- Spec of a polkadot node, embedded from the fields read by the
defaulting webhook: the shared resource block plus sync mode, logging
verbosity and the RPC toggle and port. -/
structure NodeSpec where
  Resources : Kotal.Resources
  SyncMode : String
  Logging : String
  RPC : Bool
  RPCPort : Nat
  deriving DecidableEq, Repr

/-- The family default constants referenced by the defaulting webhook.
Their concrete values are declared in per-family constant files; the
embedding keeps them as parameters so every theorem holds for each
family instantiation. -/
structure Defaults where
  NodeCPURequest : String
  NodeCPULimit : String
  NodeMemoryRequest : String
  NodeMemoryLimit : String
  NodeStorageRequest : String
  SyncMode : String
  LoggingVerbosity : String
  RPCPort : Nat
  deriving DecidableEq, Repr

/-- Embeds Node.DefaultNodeResources: fills each resource field with the
family default when the field is the empty string. -/
def DefaultNodeResources (d : Defaults) (r : Kotal.Resources) : Kotal.Resources :=
  { CPU := if r.CPU = "" then d.NodeCPURequest else r.CPU
    CPULimit := if r.CPULimit = "" then d.NodeCPULimit else r.CPULimit
    Memory := if r.Memory = "" then d.NodeMemoryRequest else r.Memory
    MemoryLimit := if r.MemoryLimit = "" then d.NodeMemoryLimit else r.MemoryLimit
    Storage := if r.Storage = "" then d.NodeStorageRequest else r.Storage
    StorageClass := r.StorageClass }

/-- Embeds Node.Default of the polkadot family: resource defaulting,
then sync mode, logging verbosity, and the RPC port only when RPC is
enabled and the port is zero. -/
def Node.Default (d : Defaults) (s : NodeSpec) : NodeSpec :=
  { Resources := DefaultNodeResources d s.Resources
    SyncMode := if s.SyncMode = "" then d.SyncMode else s.SyncMode
    Logging := if s.Logging = "" then d.LoggingVerbosity else s.Logging
    RPC := s.RPC
    RPCPort := if s.RPC then (if s.RPCPort = 0 then d.RPCPort else s.RPCPort) else s.RPCPort }

end Polkadot

namespace Stacks

/-- Spec of a stacks node as far as the defaulting webhook reads it. -/
structure NodeSpec where
  Resources : Kotal.Resources
  deriving DecidableEq, Repr

/-- Embeds Node.Default of the stacks family: the body only logs and
mutates nothing, so the embedding is the identity on the spec. -/
def Node.Default (s : NodeSpec) : NodeSpec := s

end Stacks

namespace Chainlink

/-- Embedded constant DefaultNodeCPURequest of the chainlink family. -/
def DefaultNodeCPURequest : String := "2"

/-- Embedded constant DefaultNodeCPULimit of the chainlink family. -/
def DefaultNodeCPULimit : String := "4"

/-- Embedded constant DefaultNodeMemoryRequest of the chainlink family. -/
def DefaultNodeMemoryRequest : String := "2Gi"

/-- Embedded constant DefaultNodeMemoryLimit of the chainlink family. -/
def DefaultNodeMemoryLimit : String := "4Gi"

/-- Embedded constant DefaultNodeStorageRequest of the chainlink family. -/
def DefaultNodeStorageRequest : String := "20Gi"

end Chainlink

namespace Shared

/-- A structured field error of the validation stage: field path, the
offending value, and a human readable detail string. -/
structure FieldError where
  Field : String
  BadValue : String
  Detail : String
  deriving DecidableEq, Repr

/-- Modelled from the spec: the resource invariant checker, whose
implementation is not among the given sources (only its tests are).
Given a (request, limit) quantity pair and a comparison policy, it
passes when the limit relates to the request under the policy and
otherwise reports one error naming the limit field path, the offending
limit value, and the detail string of the form required by the spec.
Fields that do not parse as quantities (in particular unset empty
fields) impose no constraint. -/
def validateQuantityPair (strict : Bool) (detailHead fieldPath request limit : String) :
    List FieldError :=
  match parseQuantity request, parseQuantity limit with
  | some rq, some lq =>
      if (if strict then lq ≤ rq else lq < rq) then
        [{ Field := fieldPath
           BadValue := limit
           Detail := detailHead ++ request }]
      else []
  | _, _ => []

/-- Modelled from the spec: the checker applied to the CPU pair with the
non strict policy and to the memory pair with the strict policy; the
storage field has no limit and is exempt. -/
def validateResources (r : Kotal.Resources) : List FieldError :=
  validateQuantityPair false "must be greater than or equal to cpu "
      "spec.resources.cpuLimit" r.CPU r.CPULimit
    ++ validateQuantityPair true "must be greater than memory "
      "spec.resources.memoryLimit" r.Memory r.MemoryLimit

/-- Modelled from the spec: the create entry point of the validation
stage runs the resource invariant checker on the spec being created. -/
def ValidateCreate (r : Kotal.Resources) : List FieldError :=
  validateResources r

/-- Modelled from the spec: the update entry point runs the resource
invariant checker on the new spec and additionally rejects a change of
the immutable storage class. -/
def ValidateUpdate (oldR newR : Kotal.Resources) : List FieldError :=
  validateResources newR
    ++ (if newR.StorageClass ≠ oldR.StorageClass then
          [{ Field := "spec.resources.storageClass"
             BadValue := newR.StorageClass.getD ""
             Detail := "field is immutable" }]
        else [])

end Shared

namespace Polkadot

/-- A polkadot node object: identity, labels, and the spec. -/
structure Node where
  Name : String
  Labels : List (String × String)
  Spec : NodeSpec
  deriving DecidableEq, Repr

/-- Spec of a persistent volume claim, restricted to the fields the
reconciler touches: access modes, the storage request (the only entry
of the requests resource list), and the storage class name. -/
structure PVCSpec where
  AccessModes : List String
  Requests : Option Nat
  StorageClassName : Option String
  deriving DecidableEq, Repr

/-- A persistent volume claim object: whether its creation timestamp is
zero (not yet created) and its labels and spec. -/
structure PVC where
  CreationTimestampIsZero : Bool
  Labels : List (String × String)
  Spec : PVCSpec
  deriving DecidableEq, Repr

/-- Embeds NodeReconciler.specPVC: parse the declared storage quantity
(none models the panic of MustParse on unparsable input); if the claim
was already created, replace only the requests resource list, otherwise
construct labels and the whole spec from the node. -/
def specPVC (node : Node) (pvc : PVC) : Option PVC :=
  (parseQuantity node.Spec.Resources.Storage).map fun request =>
    if pvc.CreationTimestampIsZero = false then
      { pvc with Spec := { pvc.Spec with Requests := some request } }
    else
      { pvc with
        Labels := node.Labels
        Spec :=
          { AccessModes := ["ReadWriteOnce"]
            Requests := some request
            StorageClassName := node.Spec.Resources.StorageClass } }

end Polkadot

namespace Ethereum

/-- An ethereum node entry of a network spec, embedded from the fields
the argument builder reads. Enumerated values such as the sync mode and
the API names appear through their string forms. -/
structure Node where
  Name : String
  SyncMode : String
  Miner : Bool
  MinerAccount : String
  RPC : Bool
  RPCPort : Nat
  RPCHost : String
  RPCAPI : List String
  WS : Bool
  WSPort : Nat
  WSHost : String
  WSAPI : List String
  Hosts : List String
  CORSDomains : List String
  deriving DecidableEq, Repr

/-- A deployment object as the network reconciler sees it: name and
namespace, the value of the app label, the controller owner reference,
and the container arguments. -/
structure Deployment where
  Name : String
  Namespace : String
  AppLabel : Option String
  Owner : String
  Args : List String
  deriving DecidableEq, Repr

/-- Embeds NetworkReconciler.deleteRedundantNodes: list every deployment
carrying the app node label (the list call constrains neither namespace
nor owner) and delete those whose name is not among the declared node
names; the survivors are returned. -/
def deleteRedundantNodes (nodes : List Node) (deps : List Deployment) :
    List Deployment :=
  deps.filter fun dep =>
    decide (dep.AppLabel = some "node" → dep.Name ∈ nodes.map Node.Name)

/-- Embeds NetworkReconciler.createArgsForClient: one conditional flag
group per spec field, with list valued fields joined by commas. -/
def createArgsForClient (node : Node) (join : String) : List String :=
  (if join ≠ "" then ["--network", join] else [])
    ++ (if node.SyncMode ≠ "" then ["--sync-mode", node.SyncMode] else [])
    ++ (if node.Miner then ["--miner-enabled"] else [])
    ++ (if node.MinerAccount ≠ "" then ["--miner-coinbase", node.MinerAccount] else [])
    ++ (if node.RPC then ["--rpc-http-enabled"] else [])
    ++ (if node.RPCPort ≠ 0 then ["--rpc-http-port", toString node.RPCPort] else [])
    ++ (if node.RPCHost ≠ "" then ["--rpc-http-host", node.RPCHost] else [])
    ++ (if node.RPCAPI ≠ [] then ["--rpc-http-api", String.intercalate "," node.RPCAPI] else [])
    ++ (if node.WS then ["--rpc-ws-enabled"] else [])
    ++ (if node.WSPort ≠ 0 then ["--rpc-ws-port", toString node.WSPort] else [])
    ++ (if node.WSHost ≠ "" then ["--rpc-ws-host", node.WSHost] else [])
    ++ (if node.WSAPI ≠ [] then ["--rpc-ws-api", String.intercalate "," node.WSAPI] else [])
    ++ (if node.Hosts ≠ [] then ["--host-whitelist", String.intercalate "," node.Hosts] else [])
    ++ (if node.CORSDomains ≠ [] then
          ["--rpc-http-cors-origins", String.intercalate "," node.CORSDomains]
        else [])

/-- Embeds NetworkReconciler.createOrUpdateNode: build the deployment
for the node (labels app node, owner reference to the network) and
either update the existing object of the same name and namespace or
create a new one. -/
def createOrUpdateNode (netName join ns : String) (node : Node) (found : Bool)
    (deps : List Deployment) : List Deployment :=
  let newDep : Deployment :=
    { Name := node.Name
      Namespace := ns
      AppLabel := some "node"
      Owner := netName
      Args := createArgsForClient node join }
  if found then
    deps.map fun d => if d.Name = node.Name ∧ d.Namespace = ns then newDep else d
  else
    deps ++ [newDep]

/-- Embeds NetworkReconciler.reconcileNode: fetch the deployment by name
and namespace to learn whether it exists, then create or update. -/
def reconcileNode (netName join ns : String) (deps : List Deployment)
    (node : Node) : List Deployment :=
  let found := deps.any fun d => decide (d.Name = node.Name ∧ d.Namespace = ns)
  createOrUpdateNode netName join ns node found deps

/-- Embeds NetworkReconciler.Reconcile on the deployment state: first
delete the redundant nodes, then reconcile every declared node in
order. -/
def Reconcile (netName join ns : String) (nodes : List Node)
    (deps : List Deployment) : List Deployment :=
  nodes.foldl (reconcileNode netName join ns) (deleteRedundantNodes nodes deps)

end Ethereum

/-- Modelled from the spec: shared.PathData, whose implementation is not
among the given sources, computes the data volume mount path from a
client home directory. -/
def PathData (dir : String) : String := dir ++ "/data"

namespace Near

/-- Spec of a NEAR node, embedded from the fields the argument builder
reads. -/
structure NodeSpec where
  P2PHost : String
  P2PPort : Nat
  RPC : Bool
  RPCHost : String
  RPCPort : Nat
  PrometheusHost : String
  PrometheusPort : Nat
  TelemetryURL : String
  Archive : Bool
  MinPeers : Nat
  Bootnodes : List String
  deriving DecidableEq, Repr

/-- The NEAR argument name constants (NearArgHome and friends), declared
outside the given sources; the embedding keeps them as parameters. -/
structure ArgConsts where
  Home : String
  NetworkAddress : String
  RPCAddress : String
  PrometheusAddress : String
  DisableRPC : String
  TelemetryURL : String
  Archive : String
  MinimumPeers : String
  Bootnodes : String
  deriving DecidableEq, Repr

/-- Embedded constant NearHomeDir of the NEAR client. -/
def NearHomeDir : String := "/home/near"

/-- Embeds NearClient.Args: the entrypoint, home and run tokens and the
network address and minimum peers flags are always emitted; the RPC and
prometheus addresses are emitted when RPC is enabled and a disable flag
when it is not; telemetry, archive and bootnodes are conditional, with
bootnodes joined by commas. -/
def Args (c : ArgConsts) (node : NodeSpec) : List String :=
  ["neard"]
    ++ [c.Home, PathData NearHomeDir]
    ++ ["run"]
    ++ [c.NetworkAddress, node.P2PHost ++ ":" ++ toString node.P2PPort]
    ++ (if node.RPC then
          [c.RPCAddress, node.RPCHost ++ ":" ++ toString node.RPCPort,
           c.PrometheusAddress, node.PrometheusHost ++ ":" ++ toString node.PrometheusPort]
        else [c.DisableRPC])
    ++ (if node.TelemetryURL ≠ "" then [c.TelemetryURL, node.TelemetryURL] else [])
    ++ (if node.Archive then [c.Archive] else [])
    ++ [c.MinimumPeers, toString node.MinPeers]
    ++ (if node.Bootnodes ≠ [] then
          [c.Bootnodes, String.intercalate "," node.Bootnodes]
        else [])

end Near

namespace PolkadotClient

/-- Embedded constant DefaultPolkadotImage of the polkadot client. -/
def DefaultPolkadotImage : String := "parity/polkadot:v0.9.9-1"

/-- Embedded constant PolkadotHomeDir of the polkadot client. -/
def PolkadotHomeDir : String := "/polkadot"

/-- Embeds PolkadotClient.Image: the override environment variable value
when set, else the pinned default image; the env parameter stands for
the result of reading the POLKADOT_IMAGE variable, with the empty
string meaning unset. -/
def Image (node : Polkadot.Node) (env : String) : String :=
  if env = "" then DefaultPolkadotImage else env

/-- Embeds PolkadotClient.Command: always nil. -/
def Command (node : Polkadot.Node) : Option (List String) := none

/-- Embeds PolkadotClient.Args: always the empty argument list. -/
def Args (node : Polkadot.Node) : List String := []

/-- Embeds PolkadotClient.HomeDir: the fixed home directory. -/
def HomeDir (node : Polkadot.Node) : String := PolkadotHomeDir

end PolkadotClient

namespace Ethereum

/-- A command line token is a flag when it starts with two dashes. -/
def isFlag (t : String) : Bool :=
  match t.data with
  | '-' :: '-' :: _ => true
  | _ => false

/-- The flags the argument builder is meant to emit, each present
exactly when its spec field is set or enabled. -/
def includedFlags (node : Node) (join : String) : List String :=
  (if join ≠ "" then ["--network"] else [])
    ++ (if node.SyncMode ≠ "" then ["--sync-mode"] else [])
    ++ (if node.Miner then ["--miner-enabled"] else [])
    ++ (if node.MinerAccount ≠ "" then ["--miner-coinbase"] else [])
    ++ (if node.RPC then ["--rpc-http-enabled"] else [])
    ++ (if node.RPCPort ≠ 0 then ["--rpc-http-port"] else [])
    ++ (if node.RPCHost ≠ "" then ["--rpc-http-host"] else [])
    ++ (if node.RPCAPI ≠ [] then ["--rpc-http-api"] else [])
    ++ (if node.WS then ["--rpc-ws-enabled"] else [])
    ++ (if node.WSPort ≠ 0 then ["--rpc-ws-port"] else [])
    ++ (if node.WSHost ≠ "" then ["--rpc-ws-host"] else [])
    ++ (if node.WSAPI ≠ [] then ["--rpc-ws-api"] else [])
    ++ (if node.Hosts ≠ [] then ["--host-whitelist"] else [])
    ++ (if node.CORSDomains ≠ [] then ["--rpc-http-cors-origins"] else [])

/-- Wellformedness of the spec fields serialized as flag values: none of
them looks like a flag itself. -/
@[reducible]
def NoDashValues (node : Node) (join : String) : Prop :=
  isFlag join = false ∧ isFlag node.SyncMode = false
    ∧ isFlag node.MinerAccount = false
    ∧ isFlag (toString node.RPCPort) = false ∧ isFlag node.RPCHost = false
    ∧ isFlag (String.intercalate "," node.RPCAPI) = false
    ∧ isFlag (toString node.WSPort) = false ∧ isFlag node.WSHost = false
    ∧ isFlag (String.intercalate "," node.WSAPI) = false
    ∧ isFlag (String.intercalate "," node.Hosts) = false
    ∧ isFlag (String.intercalate "," node.CORSDomains) = false

end Ethereum

/-! Concrete sample objects used to evaluate the definitions. -/

/-- A resource block with the CPU pair of the first create test case:
request 2 cores, limit 1 core, everything else unset. -/
def cpuViolation : Resources :=
  { CPU := "2", CPULimit := "1", Memory := "", MemoryLimit := "", Storage := ""
    StorageClass := none }

/-- A resource block with the memory pair of the second create test
case: request 1Gi, limit 1Gi, everything else unset. -/
def memViolation : Resources :=
  { CPU := "", CPULimit := "", Memory := "1Gi", MemoryLimit := "1Gi", Storage := ""
    StorageClass := none }

/-- Sample family default constants for the polkadot defaulting stage. -/
def sampleDefaults : Polkadot.Defaults :=
  { NodeCPURequest := "2", NodeCPULimit := "4", NodeMemoryRequest := "2Gi"
    NodeMemoryLimit := "4Gi", NodeStorageRequest := "20Gi", SyncMode := "fast"
    LoggingVerbosity := "info", RPCPort := 9933 }

/-- A polkadot spec with every field explicitly set and RPC disabled. -/
def setSpec : Polkadot.NodeSpec :=
  { Resources :=
      { CPU := "1", CPULimit := "3", Memory := "1Gi", MemoryLimit := "3Gi"
        Storage := "10Gi", StorageClass := some "fast-ssd" }
    SyncMode := "full", Logging := "warn", RPC := false, RPCPort := 7 }

/-- The polkadot family default constants assembled from the chainlink
constant file, standing in for a family whose default CPU request is
non empty. -/
def chainlinkLikeDefaults : Polkadot.Defaults :=
  { NodeCPURequest := Chainlink.DefaultNodeCPURequest
    NodeCPULimit := Chainlink.DefaultNodeCPULimit
    NodeMemoryRequest := Chainlink.DefaultNodeMemoryRequest
    NodeMemoryLimit := Chainlink.DefaultNodeMemoryLimit
    NodeStorageRequest := Chainlink.DefaultNodeStorageRequest
    SyncMode := "", LoggingVerbosity := "", RPCPort := 0 }

/-- A polkadot spec with every field unset. -/
def emptySpec : Polkadot.NodeSpec :=
  { Resources :=
      { CPU := "", CPULimit := "", Memory := "", MemoryLimit := "", Storage := ""
        StorageClass := none }
    SyncMode := "", Logging := "", RPC := false, RPCPort := 0 }

/-- A stacks spec with every resource field unset. -/
def emptyStacksSpec : Stacks.NodeSpec :=
  { Resources :=
      { CPU := "", CPULimit := "", Memory := "", MemoryLimit := "", Storage := ""
        StorageClass := none } }

/-- A polkadot node that declares 10Gi of storage. -/
def shrinkNode : Polkadot.Node :=
  { Name := "node1", Labels := [("app.kubernetes.io/name", "polkadot")]
    Spec :=
      { Resources :=
          { CPU := "2", CPULimit := "4", Memory := "2Gi", MemoryLimit := "4Gi"
            Storage := "10Gi", StorageClass := some "standard" }
        SyncMode := "fast", Logging := "info", RPC := false, RPCPort := 0 } }

/-- An already created (bound) claim holding a 20Gi storage request. -/
def boundPVC : Polkadot.PVC :=
  { CreationTimestampIsZero := false, Labels := []
    Spec :=
      { AccessModes := ["ReadWriteOnce"], Requests := some 21474836480000
        StorageClassName := some "standard" } }

/-- The bound claim after reconciling it against the 10Gi declaration. -/
def shrunkPVC : Polkadot.PVC :=
  { CreationTimestampIsZero := false, Labels := []
    Spec :=
      { AccessModes := ["ReadWriteOnce"], Requests := some 10737418240000
        StorageClassName := some "standard" } }

/-- An ethereum network spec entry named a, with nothing else set. -/
def nodeA : Ethereum.Node :=
  { Name := "a", SyncMode := "", Miner := false, MinerAccount := "", RPC := false
    RPCPort := 0, RPCHost := "", RPCAPI := [], WS := false, WSPort := 0
    WSHost := "", WSAPI := [], Hosts := [], CORSDomains := [] }

/-- A node deployment of a different network in a different namespace:
it carries the app node label but belongs to another aggregate. -/
def foreignDep : Ethereum.Deployment :=
  { Name := "b", Namespace := "other-ns", AppLabel := some "node"
    Owner := "other-network", Args := [] }

/-- An ethereum node with a representative mix of set and unset
fields. -/
def ethSample : Ethereum.Node :=
  { Name := "n1", SyncMode := "fast", Miner := true, MinerAccount := "0xabc"
    RPC := true, RPCPort := 8545, RPCHost := "0.0.0.0", RPCAPI := ["eth", "net"]
    WS := false, WSPort := 0, WSHost := "", WSAPI := [], Hosts := ["all"]
    CORSDomains := ["example.com"] }

/-- Sample NEAR argument name constants. -/
def nearConsts : Near.ArgConsts :=
  { Home := "--home", NetworkAddress := "--network-addr", RPCAddress := "--rpc-addr"
    PrometheusAddress := "--prometheus-addr", DisableRPC := "--disable-rpc"
    TelemetryURL := "--telemetry-url", Archive := "--archive"
    MinimumPeers := "--min-peers", Bootnodes := "--boot-nodes" }

/-- A NEAR spec with every field unset or disabled. -/
def nearUnsetNode : Near.NodeSpec :=
  { P2PHost := "", P2PPort := 0, RPC := false, RPCHost := "", RPCPort := 0
    PrometheusHost := "", PrometheusPort := 0, TelemetryURL := "", Archive := false
    MinPeers := 0, Bootnodes := [] }

/-! Theorems. -/

/-- Filling an empty string once settles it: a second fill with the same
constant changes nothing. -/
theorem fill_string_idem (c a : String) :
    (if (if a = "" then c else a) = "" then c else (if a = "" then c else a))
      = (if a = "" then c else a) := by
  by_cases h : a = "" <;> simp [h]

/-- C3: applying the polkadot defaulting stage twice yields the same
spec as applying it once, for every family constant assignment and
every node spec. -/
theorem default_idempotent (d : Polkadot.Defaults) (s : Polkadot.NodeSpec) :
    Polkadot.Node.Default d (Polkadot.Node.Default d s) = Polkadot.Node.Default d s := by
  simp only [Polkadot.Node.Default, Polkadot.DefaultNodeResources,
    Polkadot.NodeSpec.mk.injEq, Resources.mk.injEq]
  refine ⟨⟨fill_string_idem _ _, fill_string_idem _ _, fill_string_idem _ _,
    fill_string_idem _ _, fill_string_idem _ _, trivial⟩,
    fill_string_idem _ _, fill_string_idem _ _, trivial, ?_⟩
  by_cases hr : s.RPC <;> simp [hr]
  by_cases h0 : s.RPCPort = 0 <;> simp [h0]

/-- C4: the polkadot defaulting stage overwrites only empty or zero
fields: every non empty resource, sync mode and logging field and every
non zero RPC port is unchanged, and the RPC port is untouched whenever
RPC is disabled. -/
theorem default_overwrites_only_empty (d : Polkadot.Defaults) (s : Polkadot.NodeSpec) :
    (s.Resources.CPU ≠ "" →
      (Polkadot.Node.Default d s).Resources.CPU = s.Resources.CPU) ∧
    (s.Resources.CPULimit ≠ "" →
      (Polkadot.Node.Default d s).Resources.CPULimit = s.Resources.CPULimit) ∧
    (s.Resources.Memory ≠ "" →
      (Polkadot.Node.Default d s).Resources.Memory = s.Resources.Memory) ∧
    (s.Resources.MemoryLimit ≠ "" →
      (Polkadot.Node.Default d s).Resources.MemoryLimit = s.Resources.MemoryLimit) ∧
    (s.Resources.Storage ≠ "" →
      (Polkadot.Node.Default d s).Resources.Storage = s.Resources.Storage) ∧
    (s.SyncMode ≠ "" → (Polkadot.Node.Default d s).SyncMode = s.SyncMode) ∧
    (s.Logging ≠ "" → (Polkadot.Node.Default d s).Logging = s.Logging) ∧
    (s.RPCPort ≠ 0 → (Polkadot.Node.Default d s).RPCPort = s.RPCPort) ∧
    (s.RPC = false → (Polkadot.Node.Default d s).RPCPort = s.RPCPort) := by
  refine ⟨?_, ?_, ?_, ?_, ?_, ?_, ?_, ?_, ?_⟩ <;> intro h <;>
    simp [Polkadot.Node.Default, Polkadot.DefaultNodeResources, h]

/-- C4 witness: on a spec with every field set and RPC disabled, the
set CPU request and the RPC port survive defaulting. -/
theorem default_overwrites_only_empty_witness :
    (Polkadot.Node.Default sampleDefaults setSpec).Resources.CPU = setSpec.Resources.CPU ∧
    (Polkadot.Node.Default sampleDefaults setSpec).RPCPort = setSpec.RPCPort := by
  have h := default_overwrites_only_empty sampleDefaults setSpec
  exact ⟨h.1 (by decide), h.2.2.2.2.2.2.2.2 (by decide)⟩

/-- C5 counterexample: the stacks family defaulting stage leaves the
CPU request of an empty spec empty, so defaulting does not guarantee a
non empty CPU request for every client family. -/
theorem stacks_default_leaves_cpu_empty :
    (Stacks.Node.Default emptyStacksSpec).Resources.CPU = "" := rfl

/-- C5 amended: for the polkadot family defaulting stage, the CPU
request is non empty after defaulting whenever the family default CPU
request constant is non empty. -/
theorem default_cpu_request_nonempty (d : Polkadot.Defaults) (s : Polkadot.NodeSpec)
    (h : d.NodeCPURequest ≠ "") :
    (Polkadot.Node.Default d s).Resources.CPU ≠ "" := by
  by_cases hc : s.Resources.CPU = ""
  · simpa [Polkadot.Node.Default, Polkadot.DefaultNodeResources, hc] using h
  · simp [Polkadot.Node.Default, Polkadot.DefaultNodeResources, hc]

/-- C5 witness: with the chainlink default constants, defaulting an
empty polkadot spec yields a non empty CPU request. -/
theorem default_cpu_request_nonempty_witness :
    (Polkadot.Node.Default chainlinkLikeDefaults emptySpec).Resources.CPU ≠ "" :=
  default_cpu_request_nonempty chainlinkLikeDefaults emptySpec (by decide)

/-- C1: for every spec whose CPU request and limit are both set (they
parse to quantities) and whose remaining checks pass, create and update
validation pass exactly when the limit is at least the request, and on
violation the error list is exactly one error on the CPU limit field
carrying the limit as bad value and the required detail string. -/
theorem cpu_limit_validation (r oldR : Resources) (rq lq : Nat)
    (hr : parseQuantity r.CPU = some rq) (hl : parseQuantity r.CPULimit = some lq)
    (hmem : Shared.validateQuantityPair true "must be greater than memory "
      "spec.resources.memoryLimit" r.Memory r.MemoryLimit = [])
    (hsc : r.StorageClass = oldR.StorageClass) :
    (Shared.ValidateCreate r = [] ↔ rq ≤ lq) ∧
    (Shared.ValidateUpdate oldR r = [] ↔ rq ≤ lq) ∧
    (lq < rq →
      Shared.ValidateCreate r =
        [{ Field := "spec.resources.cpuLimit", BadValue := r.CPULimit
           Detail := "must be greater than or equal to cpu " ++ r.CPU }] ∧
      Shared.ValidateUpdate oldR r =
        [{ Field := "spec.resources.cpuLimit", BadValue := r.CPULimit
           Detail := "must be greater than or equal to cpu " ++ r.CPU }]) := by
  have hcpu : Shared.validateQuantityPair false "must be greater than or equal to cpu "
      "spec.resources.cpuLimit" r.CPU r.CPULimit =
      (if lq < rq then
        [{ Field := "spec.resources.cpuLimit", BadValue := r.CPULimit
           Detail := "must be greater than or equal to cpu " ++ r.CPU }]
      else []) := by
    simp [Shared.validateQuantityPair, hr, hl]
  simp only [Shared.ValidateCreate, Shared.ValidateUpdate, Shared.validateResources,
    hcpu, hmem, hsc, ne_eq, not_true_eq_false, if_false, List.append_nil]
  by_cases hlt : lq < rq <;> simp [hlt] <;> omega

/-- C1 witness: on the first create test case (CPU request 2, limit 1)
validation fails with exactly the expected CPU limit error. -/
theorem cpu_limit_validation_witness :
    (Shared.ValidateCreate cpuViolation = [] ↔ (2000 : Nat) ≤ 1000) ∧
    (Shared.ValidateUpdate cpuViolation cpuViolation = [] ↔ (2000 : Nat) ≤ 1000) ∧
    ((1000 : Nat) < 2000 →
      Shared.ValidateCreate cpuViolation =
        [{ Field := "spec.resources.cpuLimit", BadValue := cpuViolation.CPULimit
           Detail := "must be greater than or equal to cpu " ++ cpuViolation.CPU }] ∧
      Shared.ValidateUpdate cpuViolation cpuViolation =
        [{ Field := "spec.resources.cpuLimit", BadValue := cpuViolation.CPULimit
           Detail := "must be greater than or equal to cpu " ++ cpuViolation.CPU }]) :=
  cpu_limit_validation cpuViolation cpuViolation 2000 1000 (by decide) (by decide)
    (by decide) rfl

/-- C2: for every spec whose memory request and limit are both set and
whose remaining checks pass, create and update validation pass exactly
when the limit is strictly greater than the request (equality is
rejected), and on violation the error list is exactly one error on the
memory limit field carrying the limit as bad value and the required
detail string. -/
theorem memory_limit_validation (r oldR : Resources) (rq lq : Nat)
    (hr : parseQuantity r.Memory = some rq) (hl : parseQuantity r.MemoryLimit = some lq)
    (hcpu : Shared.validateQuantityPair false "must be greater than or equal to cpu "
      "spec.resources.cpuLimit" r.CPU r.CPULimit = [])
    (hsc : r.StorageClass = oldR.StorageClass) :
    (Shared.ValidateCreate r = [] ↔ rq < lq) ∧
    (Shared.ValidateUpdate oldR r = [] ↔ rq < lq) ∧
    (lq ≤ rq →
      Shared.ValidateCreate r =
        [{ Field := "spec.resources.memoryLimit", BadValue := r.MemoryLimit
           Detail := "must be greater than memory " ++ r.Memory }] ∧
      Shared.ValidateUpdate oldR r =
        [{ Field := "spec.resources.memoryLimit", BadValue := r.MemoryLimit
           Detail := "must be greater than memory " ++ r.Memory }]) := by
  have hmem : Shared.validateQuantityPair true "must be greater than memory "
      "spec.resources.memoryLimit" r.Memory r.MemoryLimit =
      (if lq ≤ rq then
        [{ Field := "spec.resources.memoryLimit", BadValue := r.MemoryLimit
           Detail := "must be greater than memory " ++ r.Memory }]
      else []) := by
    simp [Shared.validateQuantityPair, hr, hl]
  simp only [Shared.ValidateCreate, Shared.ValidateUpdate, Shared.validateResources,
    hcpu, hmem, hsc, ne_eq, not_true_eq_false, if_false, List.append_nil,
    List.nil_append]
  by_cases hle : lq ≤ rq <;> simp [hle] <;> omega

/-- C2 witness: on the second create test case (memory request 1Gi,
limit 1Gi) validation fails with exactly the expected memory limit
error. -/
theorem memory_limit_validation_witness :
    (Shared.ValidateCreate memViolation = [] ↔ (1073741824000 : Nat) < 1073741824000) ∧
    (Shared.ValidateUpdate memViolation memViolation = [] ↔
      (1073741824000 : Nat) < 1073741824000) ∧
    ((1073741824000 : Nat) ≤ 1073741824000 →
      Shared.ValidateCreate memViolation =
        [{ Field := "spec.resources.memoryLimit", BadValue := memViolation.MemoryLimit
           Detail := "must be greater than memory " ++ memViolation.Memory }] ∧
      Shared.ValidateUpdate memViolation memViolation =
        [{ Field := "spec.resources.memoryLimit", BadValue := memViolation.MemoryLimit
           Detail := "must be greater than memory " ++ memViolation.Memory }]) :=
  memory_limit_validation memViolation memViolation 1073741824000 1073741824000
    (by decide) (by decide) (by decide) rfl

/-- C6 counterexample: reconciling a bound claim holding a 20Gi request
against a node that declares 10Gi shrinks the storage request, so the
request is not grow only after binding. -/
theorem specPVC_shrinks_storage :
    Polkadot.specPVC shrinkNode boundPVC = some shrunkPVC ∧
    boundPVC.Spec.Requests = some 21474836480000 ∧
    shrunkPVC.Spec.Requests = some 10737418240000 ∧
    (10737418240000 : Nat) < 21474836480000 := by decide

/-- C6 amended: when the claim already exists, reconciling it replaces
only the storage request with the declared value (which may be smaller)
and leaves labels, access modes and storage class unchanged; when it
does not exist yet, the claim is constructed from the node spec with
the ReadWriteOnce access mode and the declared storage class. -/
theorem specPVC_frame (node : Polkadot.Node) (pvc p : Polkadot.PVC) (q : Nat)
    (hq : parseQuantity node.Spec.Resources.Storage = some q)
    (hp : Polkadot.specPVC node pvc = some p) :
    (pvc.CreationTimestampIsZero = false →
      p.CreationTimestampIsZero = pvc.CreationTimestampIsZero ∧
      p.Labels = pvc.Labels ∧
      p.Spec.AccessModes = pvc.Spec.AccessModes ∧
      p.Spec.StorageClassName = pvc.Spec.StorageClassName ∧
      p.Spec.Requests = some q) ∧
    (pvc.CreationTimestampIsZero = true →
      p.CreationTimestampIsZero = pvc.CreationTimestampIsZero ∧
      p.Labels = node.Labels ∧
      p.Spec.AccessModes = ["ReadWriteOnce"] ∧
      p.Spec.StorageClassName = node.Spec.Resources.StorageClass ∧
      p.Spec.Requests = some q) := by
  cases hb : pvc.CreationTimestampIsZero with
  | false =>
      simp [Polkadot.specPVC, hq, hb] at hp
      subst hp
      exact ⟨fun _ => ⟨rfl, rfl, rfl, rfl, rfl⟩, fun h => nomatch h⟩
  | true =>
      simp [Polkadot.specPVC, hq, hb] at hp
      subst hp
      exact And.intro (fun h => nomatch h) (fun _ => ⟨rfl, rfl, rfl, rfl, rfl⟩)

/-- C6 witness: on the bound 20Gi claim and the 10Gi node, the updated
claim keeps its labels, access modes and storage class and holds the
declared request. -/
theorem specPVC_frame_witness :
    shrunkPVC.CreationTimestampIsZero = boundPVC.CreationTimestampIsZero ∧
    shrunkPVC.Labels = boundPVC.Labels ∧
    shrunkPVC.Spec.AccessModes = boundPVC.Spec.AccessModes ∧
    shrunkPVC.Spec.StorageClassName = boundPVC.Spec.StorageClassName ∧
    shrunkPVC.Spec.Requests = some 10737418240000 :=
  (specPVC_frame shrinkNode boundPVC shrunkPVC 10737418240000 (by decide)
    (by decide)).1 rfl

/-- No reconcile pass over declared nodes can introduce a deployment
whose name is not among the declared node names. -/
theorem not_mem_reconcile_foldl (netName join ns : String) (nodes : List Ethereum.Node) :
    ∀ (acc : List Ethereum.Deployment) (d : Ethereum.Deployment),
      d.Name ∉ nodes.map Ethereum.Node.Name → d ∉ acc →
      d ∉ nodes.foldl (Ethereum.reconcileNode netName join ns) acc := by
  induction nodes with
  | nil =>
      intro acc d _ hacc
      simpa using hacc
  | cons n ns2 ih =>
      intro acc d hname hacc
      simp only [List.map_cons, List.mem_cons, not_or] at hname
      obtain ⟨h1, h2⟩ := hname
      simp only [List.foldl_cons]
      apply ih _ _ h2
      intro hmem
      simp only [Ethereum.reconcileNode, Ethereum.createOrUpdateNode] at hmem
      split at hmem
      · obtain ⟨a, ha, hEq⟩ := List.mem_map.1 hmem
        by_cases hc : a.Name = n.Name ∧ a.Namespace = ns
        · rw [if_pos hc] at hEq
          exact h1 (by simpa using (congrArg Ethereum.Deployment.Name hEq).symm)
        · rw [if_neg hc] at hEq
          exact hacc (hEq ▸ ha)
      · rcases List.mem_append.1 hmem with hin | hnew
        · exact hacc hin
        · exact h1 (by simpa using (congrArg Ethereum.Deployment.Name
            (List.mem_singleton.1 hnew).symm).symm)

/-- C7 counterexample: reconciling a network named mynet in namespace
default that declares only node a deletes a deployment of a different
owner living in a different namespace, because the cleanup matches on
the app node label alone; the claim that only workloads belonging to
the aggregate are deleted is false. -/
theorem reconcile_deletes_foreign_deployment :
    Ethereum.Reconcile "mynet" "" "default" [nodeA] [foreignDep] =
      [{ Name := "a", Namespace := "default", AppLabel := some "node"
         Owner := "mynet", Args := [] }] ∧
    foreignDep.Owner = "other-network" ∧
    foreignDep.Namespace = "other-ns" := by decide

/-- C7 amended: the cleanup keeps exactly the deployments that either
lack the app node label or whose name is still declared, regardless of
owner and namespace; and since it runs before the declared nodes are
reconciled, no app node deployment with an undeclared name survives the
full reconcile. -/
theorem deleteRedundantNodes_spec (netName join ns : String)
    (nodes : List Ethereum.Node) (deps : List Ethereum.Deployment)
    (d : Ethereum.Deployment) :
    (d ∈ Ethereum.deleteRedundantNodes nodes deps ↔
      d ∈ deps ∧ (d.AppLabel ≠ some "node" ∨ d.Name ∈ nodes.map Ethereum.Node.Name)) ∧
    (d.AppLabel = some "node" → d.Name ∉ nodes.map Ethereum.Node.Name →
      d ∉ Ethereum.Reconcile netName join ns nodes deps) := by
  constructor
  · simp only [Ethereum.deleteRedundantNodes, List.mem_filter, decide_eq_true_eq]
    tauto
  · intro ha hn
    apply not_mem_reconcile_foldl netName join ns nodes _ d hn
    intro hmem
    have hc := (List.mem_filter.1 hmem).2
    rw [decide_eq_true_eq] at hc
    exact hn (hc ha)

/-- C7 witness: the foreign deployment carries the app node label and an
undeclared name, so it is absent from the reconciled state. -/
theorem deleteRedundantNodes_spec_witness :
    foreignDep ∉ Ethereum.Reconcile "mynet" "" "default" [nodeA] [foreignDep] :=
  (deleteRedundantNodes_spec "mynet" "" "default" [nodeA] [foreignDep] foreignDep).2
    (by decide) (by decide)

/-- Membership in a conditional list segment. -/
theorem mem_if_list {α : Type} (c : Prop) [Decidable c] (a : α) (l : List α) :
    (a ∈ if c then l else []) ↔ c ∧ a ∈ l := by
  by_cases h : c <;> simp [h]

/-- Filtering the flags out of a two token segment keeps the flag alone
when the segment is present. -/
theorem filter_seg_pair (c : Prop) [Decidable c] (f v : String)
    (hf : Ethereum.isFlag f = true) (hv : Ethereum.isFlag v = false) :
    List.filter Ethereum.isFlag (if c then [f, v] else []) = (if c then [f] else []) := by
  by_cases h : c <;> simp [h, List.filter_cons, hf, hv]

/-- Filtering the flags out of a single token segment is the identity. -/
theorem filter_seg_single (c : Prop) [Decidable c] (f : String)
    (hf : Ethereum.isFlag f = true) :
    List.filter Ethereum.isFlag (if c then [f] else []) = (if c then [f] else []) := by
  by_cases h : c <;> simp [h, List.filter_cons, hf]

/-- C8 counterexample: the NEAR adapter emits the minimum peers flag
although the field is unset (zero) and emits a disable flag for the
disabled RPC field, so it is false that every flag is included only
when the corresponding field is set or enabled. -/
theorem near_args_unconditional_flags :
    nearConsts.MinimumPeers ∈ Near.Args nearConsts nearUnsetNode ∧
    nearUnsetNode.MinPeers = 0 ∧
    nearConsts.DisableRPC ∈ Near.Args nearConsts nearUnsetNode ∧
    nearUnsetNode.RPC = false := by decide

/-- C8 amended: for the ethereum argument builder, provided no field
value itself looks like a flag, the flags occurring among the produced
arguments are exactly the conditionally included ones, and every multi
value field appears as one comma joined token when it is non empty; the
NEAR adapter additionally always emits its minimum peers flag, emits a
disable flag when RPC is disabled, and joins its bootnodes with
commas. -/
theorem args_conditional_flags (node : Ethereum.Node) (join : String)
    (h : Ethereum.NoDashValues node join) :
    ((Ethereum.createArgsForClient node join).filter Ethereum.isFlag =
      Ethereum.includedFlags node join) ∧
    (node.RPCAPI ≠ [] →
      String.intercalate "," node.RPCAPI ∈ Ethereum.createArgsForClient node join) ∧
    (node.WSAPI ≠ [] →
      String.intercalate "," node.WSAPI ∈ Ethereum.createArgsForClient node join) ∧
    (node.Hosts ≠ [] →
      String.intercalate "," node.Hosts ∈ Ethereum.createArgsForClient node join) ∧
    (node.CORSDomains ≠ [] →
      String.intercalate "," node.CORSDomains ∈ Ethereum.createArgsForClient node join) ∧
    (∀ (c : Near.ArgConsts) (n : Near.NodeSpec),
      c.MinimumPeers ∈ Near.Args c n ∧
      (n.RPC = false → c.DisableRPC ∈ Near.Args c n) ∧
      (n.Bootnodes ≠ [] → String.intercalate "," n.Bootnodes ∈ Near.Args c n)) := by
  obtain ⟨v1, v2, v3, v4, v5, v6, v7, v8, v9, v10, v11⟩ := h
  refine ⟨?_, ?_, ?_, ?_, ?_, ?_⟩
  · have f1 : Ethereum.isFlag "--network" = true := rfl
    have f2 : Ethereum.isFlag "--sync-mode" = true := rfl
    have f3 : Ethereum.isFlag "--miner-enabled" = true := rfl
    have f4 : Ethereum.isFlag "--miner-coinbase" = true := rfl
    have f5 : Ethereum.isFlag "--rpc-http-enabled" = true := rfl
    have f6 : Ethereum.isFlag "--rpc-http-port" = true := rfl
    have f7 : Ethereum.isFlag "--rpc-http-host" = true := rfl
    have f8 : Ethereum.isFlag "--rpc-http-api" = true := rfl
    have f9 : Ethereum.isFlag "--rpc-ws-enabled" = true := rfl
    have f10 : Ethereum.isFlag "--rpc-ws-port" = true := rfl
    have f11 : Ethereum.isFlag "--rpc-ws-host" = true := rfl
    have f12 : Ethereum.isFlag "--rpc-ws-api" = true := rfl
    have f13 : Ethereum.isFlag "--host-whitelist" = true := rfl
    have f14 : Ethereum.isFlag "--rpc-http-cors-origins" = true := rfl
    simp only [Ethereum.createArgsForClient, Ethereum.includedFlags, List.filter_append]
    rw [filter_seg_pair _ _ _ f1 v1, filter_seg_pair _ _ _ f2 v2,
      filter_seg_single _ _ f3, filter_seg_pair _ _ _ f4 v3,
      filter_seg_single _ _ f5, filter_seg_pair _ _ _ f6 v4,
      filter_seg_pair _ _ _ f7 v5, filter_seg_pair _ _ _ f8 v6,
      filter_seg_single _ _ f9, filter_seg_pair _ _ _ f10 v7,
      filter_seg_pair _ _ _ f11 v8, filter_seg_pair _ _ _ f12 v9,
      filter_seg_pair _ _ _ f13 v10, filter_seg_pair _ _ _ f14 v11]
  · intro hne
    simp [Ethereum.createArgsForClient, mem_if_list, hne]
  · intro hne
    simp [Ethereum.createArgsForClient, mem_if_list, hne]
  · intro hne
    simp [Ethereum.createArgsForClient, mem_if_list, hne]
  · intro hne
    simp [Ethereum.createArgsForClient, mem_if_list, hne]
  · intro c n
    refine ⟨?_, ?_, ?_⟩
    · simp [Near.Args]
    · intro hr
      simp [Near.Args, hr]
    · intro hb
      simp [Near.Args, mem_if_list, hb]

/-- C8 witness: on a representative ethereum node joined to mainnet,
the flags among the produced arguments are exactly the included
ones. -/
theorem args_conditional_flags_witness :
    (Ethereum.createArgsForClient ethSample "mainnet").filter Ethereum.isFlag =
      Ethereum.includedFlags ethSample "mainnet" :=
  (args_conditional_flags ethSample "mainnet" (by decide)).1

/-- C10: the polkadot client adapter outputs are independent of the node
spec: the command is nil, the argument list empty, the home directory
the fixed /polkadot, and with the override environment variable unset
the image is the pinned default. -/
theorem polkadot_client_constant (n1 n2 : Polkadot.Node) :
    PolkadotClient.Args n1 = [] ∧
    PolkadotClient.Command n1 = none ∧
    PolkadotClient.HomeDir n1 = "/polkadot" ∧
    PolkadotClient.Image n1 "" = PolkadotClient.DefaultPolkadotImage ∧
    PolkadotClient.Args n1 = PolkadotClient.Args n2 ∧
    PolkadotClient.Command n1 = PolkadotClient.Command n2 ∧
    PolkadotClient.HomeDir n1 = PolkadotClient.HomeDir n2 ∧
    (∀ env : String, PolkadotClient.Image n1 env = PolkadotClient.Image n2 env) :=
  ⟨rfl, rfl, rfl, by simp [PolkadotClient.Image], rfl, rfl, rfl, fun _ => rfl⟩

end Kotal
